import Mathlib

/-!
Verification of the leader/follower replicated key-value store.

The Python sources are embedded shallowly:
* `api/store.py` (`KeyValueStore`) becomes a record of two association
  lists (the two dicts `_store` and `_timestamps`), with `get`/`set`
  as pure state-passing functions.  Timestamps (Python `float`) are
  modelled as `Rat`: only ordering comparisons are performed on them.
* `api/endpoints/follower.py` and `api/endpoints/leader.py` become
  handler functions over that state.
* `api/replication.py` (`ReplicationService`) becomes a function over an
  explicit completion schedule: the list of batches in which the
  per-follower replication tasks complete, mirroring the
  `asyncio.wait(..., return_when=FIRST_COMPLETED)` loop, whose iterations
  each observe one non-empty batch of completed tasks.
-/

namespace LeadersFollowers

/-- Python `dict.get(key)` on an association list. -/
def dictGet {α : Type} (l : List (String × α)) (k : String) : Option α :=
  match l with
  | [] => none
  | (k2, v) :: rest => if k2 = k then some v else dictGet rest k

/-- Python `d[key] = value` on an association list: overwrite in place if
the key is present, otherwise append. -/
def dictInsert {α : Type} (l : List (String × α)) (k : String) (v : α) :
    List (String × α) :=
  match l with
  | [] => [(k, v)]
  | (k2, v2) :: rest =>
      if k2 = k then (k, v) :: rest else (k2, v2) :: dictInsert rest k v

/-- `api/store.py`, class `KeyValueStore`: the two dicts `_store` and
`_timestamps`. -/
structure KeyValueStore where
  store : List (String × String)
  timestamps : List (String × Rat)
  deriving DecidableEq, Repr

/-- `KeyValueStore.__init__`: both dicts start empty. -/
def KeyValueStore.empty : KeyValueStore := ⟨[], []⟩

/-- `KeyValueStore.get`: `self._store.get(key)`. -/
def KeyValueStore.get (s : KeyValueStore) (key : String) : Option String :=
  dictGet s.store key

/-- `KeyValueStore.set`:
```
current_ts = self._timestamps.get(key, 0)
if timestamp is None or timestamp > current_ts:
    self._store[key] = value
    if timestamp is not None:
        self._timestamps[key] = timestamp
    return True
return False
```
State-passing version returning the updated store and the Python result. -/
def KeyValueStore.set (s : KeyValueStore) (key : String) (value : String)
    (timestamp : Option Rat) : KeyValueStore × Bool :=
  let current_ts := (dictGet s.timestamps key).getD 0
  match timestamp with
  | none => ({ s with store := dictInsert s.store key value }, true)
  | some t =>
      if t > current_ts then
        ({ store := dictInsert s.store key value,
           timestamps := dictInsert s.timestamps key t }, true)
      else
        (s, false)

/-- `KeyValueStore.exists`: `key in self._store`. -/
def KeyValueStore.keyExists (s : KeyValueStore) (key : String) : Bool :=
  (dictGet s.store key).isSome

/-- `KeyValueStore.all`: a copy of `self._store`. -/
def KeyValueStore.all (s : KeyValueStore) : List (String × String) :=
  s.store

theorem dictGet_dictInsert {α : Type} (l : List (String × α)) (k : String)
    (v : α) : dictGet (dictInsert l k v) k = some v := by
  induction l with
  | nil => simp [dictInsert, dictGet]
  | cons hd tl ih =>
      obtain ⟨k2, v2⟩ := hd
      by_cases h : k2 = k
      · simp [dictInsert, dictGet, h]
      · simp [dictInsert, dictGet, h, ih]

theorem dictGet_dictInsert_ne {α : Type} (l : List (String × α))
    (k k2 : String) (v : α) (h : k ≠ k2) :
    dictGet (dictInsert l k v) k2 = dictGet l k2 := by
  induction l with
  | nil => simp [dictInsert, dictGet, h]
  | cons hd tl ih =>
      obtain ⟨k3, v3⟩ := hd
      by_cases h3 : k3 = k
      · subst h3
        simp [dictInsert, dictGet, h]
      · simp [dictInsert, dictGet, h3, ih]

/-! ## Schemas (`api/schemas.py`) -/

/-- `ReplicationRequest`: body of a `POST /replicate` call. -/
structure ReplicationRequest where
  key : String
  value : String
  timestamp : Rat
  deriving DecidableEq, Repr

/-- `ReplicationResponse`: follower acknowledgment. -/
structure ReplicationResponse where
  success : Bool
  follower_id : String
  deriving DecidableEq, Repr

/-- `WriteRequest`: body of a `POST /write` call (no timestamp field). -/
structure WriteRequest where
  key : String
  value : String
  deriving DecidableEq, Repr

/-! ## Follower endpoint (`api/endpoints/follower.py`) -/

/-- The `/replicate` handler:
```
await store.set(request.key, request.value)
return ReplicationResponse(success=True, follower_id=config.NODE_ID)
```
Note the call passes NO timestamp, so `KeyValueStore.set` takes its
`timestamp is None` branch. -/
def replicateEndpoint (st : KeyValueStore) (request : ReplicationRequest)
    (node_id : String) : KeyValueStore × ReplicationResponse :=
  let r := st.set request.key request.value none
  (r.1, ⟨true, node_id⟩)

/-! ## Replication coordinator (`api/replication.py`) -/

/-- Outcome of the HTTP exchange of one replication attempt, as observed
inside `_replicate_to_follower`: either a response with a status code and
an optional `follower_id` json field, or a raised exception (timeout or
transport error). -/
inductive FollowerReply where
  | response (status : Nat) (follower_id : Option String)
  | exn (msg : String)
  deriving DecidableEq, Repr

/-- `ReplicationService._replicate_to_follower`, given the outcome of its
HTTP exchange (the simulated pre-send delay does not affect the value):
returns `(True, follower_id-or-url)` on a 200 response and
`(False, follower_url)` on any other status; the `try/except` absorbs a
raised exception into `(False, follower_url)`. -/
def replicateToFollower (follower_url : String) (reply : FollowerReply) :
    Bool × String :=
  match reply with
  | .response status fid =>
      if status = 200 then (true, fid.getD follower_url)
      else (false, follower_url)
  | .exn _ => (false, follower_url)

/-- Number of acknowledged (successful) results in a batch. -/
def ackCount (batch : List (Bool × String)) : Nat :=
  batch.countP (fun r => r.1)

/-- The `for task in done:` body of `ReplicationService.replicate`,
iterated over one batch: counts successes, and the moment
`successful_count >= quorum` holds after an increment it returns
`(True, successful_count)` early (`.inl`); otherwise it yields the new
count to the enclosing while loop (`.inr`). -/
def processBatch (quorum : Int) (succ : Nat) :
    List (Bool × String) → (Bool × Nat) ⊕ Nat
  | [] => .inr succ
  | r :: rest =>
      if r.1 then
        if quorum ≤ ((succ + 1 : Nat) : Int) then .inl (true, succ + 1)
        else processBatch quorum (succ + 1) rest
      else processBatch quorum succ rest

/-- The `while pending and successful_count < quorum:` loop of
`ReplicationService.replicate`, driven by the schedule of completion
batches; when the loop exits it returns
`(successful_count >= quorum, successful_count)`. -/
def replicateLoop (quorum : Int) (succ : Nat) :
    List (List (Bool × String)) → Bool × Nat
  | [] => (decide (quorum ≤ (succ : Int)), succ)
  | batch :: rest =>
      if (succ : Int) < quorum then
        match processBatch quorum succ batch with
        | .inl r => r
        | .inr succ2 => replicateLoop quorum succ2 rest
      else
        (decide (quorum ≤ (succ : Int)), succ)

/-- `ReplicationService.replicate(key, value, timestamp, quorum)`: returns
`(True, 0)` on an empty follower list before creating any task; otherwise
dispatches one task per follower and runs the waiting loop over the
completion schedule.  `key`, `value` and `timestamp` are carried to the
followers but do not influence the coordinator's decision. -/
def ReplicationService.replicate (follower_urls : List String)
    (key value : String) (timestamp : Rat) (quorum : Int)
    (sched : List (List (Bool × String))) : Bool × Nat :=
  if follower_urls.isEmpty then (true, 0)
  else replicateLoop quorum 0 sched

/-- Number of replication tasks `replicate` creates: none when the
follower list is empty (the early return precedes `asyncio.create_task`),
one per follower otherwise. -/
def ReplicationService.dispatched (follower_urls : List String) : Nat :=
  if follower_urls.isEmpty then 0 else follower_urls.length

/-- A completion schedule is the real timeline of one `replicate` call:
every `asyncio.wait(..., FIRST_COMPLETED)` round yields at least one
completed task, and across the whole call each of the dispatched
per-follower tasks completes exactly once. -/
def ValidSchedule (follower_urls : List String)
    (sched : List (List (Bool × String))) : Prop :=
  (∀ b ∈ sched, b ≠ []) ∧ sched.flatten.length = follower_urls.length

/-! ## Leader endpoint (`api/endpoints/leader.py`) -/

/-- What the `/write` handler produces: a FastAPI `HTTPException`, an
uncaught Python exception (which FastAPI surfaces as a 500), or a
`WriteResponse` (never reached, see `write`). -/
inductive WriteResult where
  | httpError (status : Nat) (detail : String)
  | pythonError (msg : String)
  | response (success : Bool) (replicated_count : Nat)
  deriving DecidableEq, Repr

/-- The `/write` handler.  After the leader check it runs
`await store.set(request.key, request.value)` — no timestamp — and then
calls `replication_service.replicate(key=request.key,
value=request.value, quorum=config.WRITE_QUORUM)`.  The signature
`replicate(self, key, value, timestamp, quorum)` makes `timestamp` a
required parameter, so this call raises
`TypeError: replicate() missing 1 required positional argument: timestamp`
before any replication is attempted, and the handler never reaches the
`WriteResponse` branches. -/
def write (is_leader : Bool) (st : KeyValueStore) (request : WriteRequest) :
    KeyValueStore × WriteResult :=
  if is_leader = false then
    (st, .httpError 403 "Write operations are only allowed on the leader")
  else
    let r := st.set request.key request.value none
    (r.1, .pythonError
      "replicate() missing 1 required positional argument: timestamp")

/-! ## Lemmas about the coordination loop -/

theorem ackCount_nil : ackCount [] = 0 := rfl

theorem ackCount_cons (r : Bool × String) (rest : List (Bool × String)) :
    ackCount (r :: rest) = ackCount rest + (if r.1 then 1 else 0) := by
  simp [ackCount, List.countP_cons]

theorem ackCount_append (l1 l2 : List (Bool × String)) :
    ackCount (l1 ++ l2) = ackCount l1 + ackCount l2 := by
  simp [ackCount, List.countP_append]

/-- If the batch does not bring the running count up to `quorum`, the for
loop finishes the batch and hands back the increased count. -/
theorem processBatch_no_quorum (quorum : Int) (batch : List (Bool × String))
    (succ : Nat) (h : ((succ + ackCount batch : Nat) : Int) < quorum) :
    processBatch quorum succ batch = .inr (succ + ackCount batch) := by
  induction batch generalizing succ with
  | nil => simp [processBatch, ackCount_nil]
  | cons r rest ih =>
      rw [ackCount_cons] at h ⊢
      by_cases hr : r.1
      · simp only [hr, if_true] at h ⊢
        have hq : ¬ quorum ≤ ((succ + 1 : Nat) : Int) := by
          push_cast at h ⊢
          omega
        have hrec := ih (succ + 1) (by push_cast at h ⊢; omega)
        simp only [processBatch, hr, if_true, if_neg hq, hrec]
        congr 1
        omega
      · simp only [hr] at h ⊢
        have hrec := ih succ (by push_cast at h ⊢; omega)
        simp [processBatch, hr, hrec]

/-- If the running count is still short of `quorum` but the batch carries
enough acknowledgments, the for loop returns `(True, quorum)` at the
first acknowledgment that reaches `quorum` — the rest of the batch is
not consulted. -/
theorem processBatch_reaches_quorum (quorum : Int)
    (batch : List (Bool × String)) (succ : Nat)
    (hlt : (succ : Int) < quorum)
    (hge : quorum ≤ ((succ + ackCount batch : Nat) : Int)) :
    processBatch quorum succ batch = .inl (true, quorum.toNat) := by
  induction batch generalizing succ with
  | nil =>
      rw [ackCount_nil] at hge
      omega
  | cons r rest ih =>
      rw [ackCount_cons] at hge
      by_cases hr : r.1
      · simp only [hr, if_true] at hge
        by_cases hq : quorum ≤ ((succ + 1 : Nat) : Int)
        · have hsucc : succ + 1 = quorum.toNat := by push_cast at hq; omega
          simp only [processBatch, hr, if_true]
          rw [if_pos hq, hsucc]
        · have hrec := ih (succ + 1) (by push_cast at hq ⊢; omega)
            (by push_cast at hge ⊢; omega)
          simp only [processBatch, hr, if_true, if_neg hq, hrec]
      · simp only [hr] at hge
        have hrec := ih succ hlt (by push_cast at hge ⊢; omega)
        simp [processBatch, hr, hrec]

/-- The committed flag the loop returns always equals
`quorum ≤ successful_count` for the count it returns. -/
theorem replicateLoop_fst (quorum : Int) (succ : Nat)
    (sched : List (List (Bool × String))) :
    (replicateLoop quorum succ sched).1 =
      decide (quorum ≤ ((replicateLoop quorum succ sched).2 : Int)) := by
  induction sched generalizing succ with
  | nil => simp [replicateLoop]
  | cons batch rest ih =>
      by_cases hlt : (succ : Int) < quorum
      · by_cases hge : quorum ≤ ((succ + ackCount batch : Nat) : Int)
        · rw [replicateLoop, if_pos hlt,
            processBatch_reaches_quorum quorum batch succ hlt hge]
          simp [Int.self_le_toNat]
        · rw [replicateLoop, if_pos hlt,
            processBatch_no_quorum quorum batch succ (by omega)]
          exact ih (succ + ackCount batch)
      · simp [replicateLoop, hlt]

/-- A `False` verdict is only reached once every batch of the schedule
has been consumed: the returned count is then the total number of
acknowledgments in the whole schedule. -/
theorem replicateLoop_false (quorum : Int) (succ : Nat)
    (sched : List (List (Bool × String)))
    (h : (replicateLoop quorum succ sched).1 = false) :
    (replicateLoop quorum succ sched).2 = succ + ackCount sched.flatten := by
  induction sched generalizing succ with
  | nil => simp [replicateLoop, ackCount_nil]
  | cons batch rest ih =>
      by_cases hlt : (succ : Int) < quorum
      · by_cases hge : quorum ≤ ((succ + ackCount batch : Nat) : Int)
        · rw [replicateLoop, if_pos hlt,
            processBatch_reaches_quorum quorum batch succ hlt hge] at h
          simp at h
        · rw [replicateLoop, if_pos hlt,
            processBatch_no_quorum quorum batch succ (by omega)] at h ⊢
          rw [ih (succ + ackCount batch) h, List.flatten_cons, ackCount_append]
          omega
      · rw [replicateLoop, if_neg hlt] at h
        simp at h
        omega

/-- Early exit: as soon as the acknowledgments seen so far cover the gap
to `quorum`, the loop returns `(True, quorum)` and the remaining part of
the schedule is never consulted. -/
theorem replicateLoop_early_exit (quorum : Int) (succ : Nat)
    (s1 s2 : List (List (Bool × String)))
    (hlt : (succ : Int) < quorum)
    (hge : quorum ≤ ((succ + ackCount s1.flatten : Nat) : Int)) :
    replicateLoop quorum succ (s1 ++ s2) = (true, quorum.toNat) := by
  induction s1 generalizing succ with
  | nil =>
      rw [List.flatten_nil, ackCount_nil] at hge
      omega
  | cons batch rest ih =>
      rw [List.flatten_cons, ackCount_append] at hge
      by_cases hb : quorum ≤ ((succ + ackCount batch : Nat) : Int)
      · rw [List.cons_append, replicateLoop, if_pos hlt,
          processBatch_reaches_quorum quorum batch succ hlt hb]
      · rw [List.cons_append, replicateLoop, if_pos hlt,
          processBatch_no_quorum quorum batch succ (by omega)]
        exact ih (succ + ackCount batch) (by omega) (by push_cast at hge ⊢; omega)

/-- When the loop starts below `quorum` and commits, the count it returns
is exactly `quorum`: it stops at the first acknowledgment that reaches
the threshold. -/
theorem replicateLoop_true_count (quorum : Int) (succ : Nat)
    (sched : List (List (Bool × String)))
    (hlt : (succ : Int) < quorum)
    (h : (replicateLoop quorum succ sched).1 = true) :
    (replicateLoop quorum succ sched).2 = quorum.toNat := by
  induction sched generalizing succ with
  | nil =>
      rw [replicateLoop] at h
      simp at h
      omega
  | cons batch rest ih =>
      by_cases hge : quorum ≤ ((succ + ackCount batch : Nat) : Int)
      · rw [replicateLoop, if_pos hlt,
          processBatch_reaches_quorum quorum batch succ hlt hge]
      · rw [replicateLoop, if_pos hlt,
          processBatch_no_quorum quorum batch succ (by omega)] at h ⊢
        exact ih (succ + ackCount batch) (by omega) h

/-- The count the loop returns never exceeds the starting count plus the
total number of acknowledgments the schedule carries. -/
theorem replicateLoop_count_le (quorum : Int) (succ : Nat)
    (sched : List (List (Bool × String))) :
    (replicateLoop quorum succ sched).2 ≤ succ + ackCount sched.flatten := by
  induction sched generalizing succ with
  | nil => simp [replicateLoop]
  | cons batch rest ih =>
      rw [List.flatten_cons, ackCount_append]
      by_cases hlt : (succ : Int) < quorum
      · by_cases hge : quorum ≤ ((succ + ackCount batch : Nat) : Int)
        · rw [replicateLoop, if_pos hlt,
            processBatch_reaches_quorum quorum batch succ hlt hge]
          show quorum.toNat ≤ succ + (ackCount batch + ackCount rest.flatten)
          omega
        · rw [replicateLoop, if_pos hlt,
            processBatch_no_quorum quorum batch succ (by omega)]
          show (replicateLoop quorum (succ + ackCount batch) rest).2 ≤
            succ + (ackCount batch + ackCount rest.flatten)
          have := ih (succ + ackCount batch)
          omega
      · rw [replicateLoop, if_neg hlt]
        omega

/-! ## Claim theorems -/

/-- C1 (counterexample): the claim says `set` applies the write whenever
no entry exists yet for the key, but on a fresh store `set("k", "v", 0)`
returns `False` and stores nothing: `_timestamps.get(key, 0)` makes an
absent key behave as if its current timestamp were `0`, so a first write
with timestamp `0` (or negative) is rejected as stale. -/
theorem set_fresh_key_rejected_cex :
    (KeyValueStore.empty.set "k" "v" (some 0)).2 = false ∧
    (KeyValueStore.empty.set "k" "v" (some 0)).1 = KeyValueStore.empty := by
  decide

/-- C1 (amended): `set(k, v, t)` applies the write (stores `v`, records
timestamp `t`, returns `True`) iff `t` is strictly greater than the key's
current timestamp, where a key with no entry defaults to timestamp `0`;
otherwise it returns `False` and leaves the store unchanged.
Consequently, after `set(k, v1, t1)` then `set(k, v2, t2)` on an
initially absent key with `t1 > 0`: `get(k) = v2` if `t2 > t1`, and
`get(k) = v1` if `t2 ≤ t1`. -/
theorem set_lww (s : KeyValueStore) (k v : String) (t : Rat) :
    ((t > (dictGet s.timestamps k).getD 0 →
        (s.set k v (some t)).2 = true ∧
        (s.set k v (some t)).1.get k = some v ∧
        dictGet (s.set k v (some t)).1.timestamps k = some t) ∧
     (¬ t > (dictGet s.timestamps k).getD 0 →
        s.set k v (some t) = (s, false))) ∧
    (∀ v1 v2 : String, ∀ t1 t2 : Rat,
      dictGet s.timestamps k = none → 0 < t1 →
      ((s.set k v1 (some t1)).1.set k v2 (some t2)).1.get k =
        some (if t1 < t2 then v2 else v1)) := by
  constructor
  · constructor
    · intro h
      refine ⟨?_, ?_, ?_⟩
      · simp [KeyValueStore.set, if_pos h]
      · simp only [KeyValueStore.set, if_pos h, KeyValueStore.get]
        exact dictGet_dictInsert _ _ _
      · simp only [KeyValueStore.set, if_pos h]
        exact dictGet_dictInsert _ _ _
    · intro h
      simp only [KeyValueStore.set, if_neg h]
  · intro v1 v2 t1 t2 habs ht1
    have h1 : t1 > (dictGet s.timestamps k).getD 0 := by
      rw [habs]
      exact ht1
    simp only [KeyValueStore.set, if_pos h1]
    rw [dictGet_dictInsert]
    by_cases h2 : t1 < t2
    · simp only [Option.getD_some, if_pos h2, KeyValueStore.get]
      exact dictGet_dictInsert _ _ _
    · simp only [Option.getD_some, if_neg h2, KeyValueStore.get]
      exact dictGet_dictInsert _ _ _

/-- C1 (witness): the amended theorem at concrete inputs — a first write
with timestamp 1 is applied, and a second write with timestamp 2 over
timestamp 1 wins. -/
theorem set_lww_witness :
    (KeyValueStore.empty.set "a" "b" (some 1)).2 = true ∧
    ((KeyValueStore.empty.set "a" "x" (some 1)).1.set "a" "y" (some 2)).1.get
      "a" = some "y" := by
  constructor
  · exact ((set_lww KeyValueStore.empty "a" "b" 1).1.1 (by decide)).1
  · have h := (set_lww KeyValueStore.empty "a" "b" 1).2 "x" "y" 1 2 rfl
      (by decide)
    simpa using h

/-- C2: the claim says the follower's `/replicate` handler applies the
carried timestamp so last-writer-wins holds at the follower.  The code
calls `store.set(request.key, request.value)` WITHOUT the timestamp, so a
stale replication (carried timestamp 3 against a stored timestamp 5)
overwrites the newer value and still acknowledges success — the carried
timestamp is ignored and last-writer-wins is not enforced at the
follower. -/
theorem follower_replicate_ignores_timestamp :
    (replicateEndpoint ⟨[("k", "v1")], [("k", (5 : Rat))]⟩ ⟨"k", "v2", 3⟩
        "f1").1.get "k" = some "v2" ∧
    (replicateEndpoint ⟨[("k", "v1")], [("k", (5 : Rat))]⟩ ⟨"k", "v2", 3⟩
        "f1").2.success = true := by
  decide

/-- C3: the claim says the leader's `/write` handler assigns a timestamp,
applies it locally, and passes it to `Coordinator.replicate`.  The code
applies the local write with NO timestamp (the store's `_timestamps` dict
stays empty) and calls `replicate` without its required `timestamp`
parameter, which raises a `TypeError` on every accepted write. -/
theorem write_missing_timestamp_argument :
    (write true KeyValueStore.empty ⟨"k", "v"⟩).2 =
      WriteResult.pythonError
        "replicate() missing 1 required positional argument: timestamp" ∧
    (write true KeyValueStore.empty ⟨"k", "v"⟩).1.timestamps = [] := by
  decide

/-- C10: a `set(k, v)` call with no timestamp (the `timestamp=None`
default) unconditionally stores `v`, returns `True`, and leaves the
`_timestamps` dict untouched, whatever timestamp the key currently
carries — the last-writer-wins check is bypassed entirely. -/
theorem set_none_bypasses_lww (s : KeyValueStore) (k v : String) :
    (s.set k v none).2 = true ∧
    (s.set k v none).1.get k = some v ∧
    (s.set k v none).1.timestamps = s.timestamps := by
  refine ⟨rfl, ?_, rfl⟩
  simp only [KeyValueStore.set, KeyValueStore.get]
  exact dictGet_dictInsert _ _ _

/-- C4: with a non-empty follower list and `quorum ≥ 1`, the instant the
running acknowledged-count reaches `quorum` — i.e. over any schedule
whose prefix `s1` already carries `quorum` acknowledgments — `replicate`
returns `(True, quorum)` at once: the result is the same for every
continuation `s2` of the schedule, so the still-outstanding attempts are
never waited for and their results are discarded. -/
theorem replicate_early_exit (follower_urls : List String) (k v : String)
    (t : Rat) (quorum : Int) (s1 s2 : List (List (Bool × String)))
    (hq : 1 ≤ quorum) (hf : follower_urls ≠ [])
    (hreach : quorum ≤ ((ackCount s1.flatten : Nat) : Int)) :
    ReplicationService.replicate follower_urls k v t quorum (s1 ++ s2) =
      (true, quorum.toNat) := by
  rw [ReplicationService.replicate, if_neg (by simpa using hf)]
  exact replicateLoop_early_exit quorum 0 s1 s2 (by omega)
    (by simpa using hreach)

/-- C4 (witness): followers `["a", "b"]`, `quorum = 1`: once the first
batch acknowledges, the result is `(True, 1)` whatever the second batch
holds. -/
theorem replicate_early_exit_witness :
    ReplicationService.replicate ["a", "b"] "k" "v" 1 1
      ([[(true, "a")]] ++ [[(false, "b")]]) = (true, 1) :=
  replicate_early_exit ["a", "b"] "k" "v" 1 1 [[(true, "a")]]
    [[(false, "b")]] (by decide) (by decide) (by decide)

/-- C5: with a non-empty follower list and `quorum ≥ 1`, a
`(False, n)` verdict is only produced once every dispatched attempt has
resolved: `n` is then the total number of acknowledgments of the entire
completion schedule (which, being valid, contains exactly one completion
per dispatched attempt), and `n` still falls short of `quorum`. -/
theorem replicate_full_wait (follower_urls : List String) (k v : String)
    (t : Rat) (quorum : Int) (sched : List (List (Bool × String))) (n : Nat)
    (hq : 1 ≤ quorum) (hf : follower_urls ≠ [])
    (hs : ValidSchedule follower_urls sched)
    (h : ReplicationService.replicate follower_urls k v t quorum sched =
      (false, n)) :
    n = ackCount sched.flatten ∧ (n : Int) < quorum := by
  rw [ReplicationService.replicate, if_neg (by simpa using hf)] at h
  have h1 : (replicateLoop quorum 0 sched).1 = false := by rw [h]
  have h2 : (replicateLoop quorum 0 sched).2 = n := by rw [h]
  have h3 := replicateLoop_false quorum 0 sched h1
  have h4 := replicateLoop_fst quorum 0 sched
  rw [h1, h2] at h4
  constructor
  · omega
  · have := of_decide_eq_false h4.symm
    omega

/-- C5 (witness): three followers, `quorum = 2`, one late acknowledgment:
the verdict `(False, 1)` carries the full schedule's single
acknowledgment. -/
theorem replicate_full_wait_witness :
    (1 : Nat) = ackCount
      ([[(false, "a")], [(false, "b"), (true, "c")]] :
        List (List (Bool × String))).flatten ∧ ((1 : Nat) : Int) < 2 :=
  replicate_full_wait ["a", "b", "c"] "k" "v" 1 2
    [[(false, "a")], [(false, "b"), (true, "c")]] 1 (by decide) (by decide)
    (by constructor <;> decide) (by decide)

/-- C6 (counterexample): the claim says the committed flag always equals
`acknowledged_count ≥ quorum` and that `quorum` above the follower count
always yields `committed = False`; but with an empty follower list and
`quorum = 1` the code returns `(True, 0)` even though `0 ≥ 1` fails and
`quorum = 1` exceeds the `0` configured followers. -/
theorem replicate_committed_iff_cex :
    ReplicationService.replicate [] "k" "v" 1 1 [] = (true, 0) ∧
    ¬ ((1 : Int) ≤ ((0 : Nat) : Int)) := by
  decide

/-- C6 (amended): for every `replicate` call with a NON-EMPTY follower
list, the returned committed flag equals `acknowledged_count ≥ quorum`;
in particular, whenever `quorum` exceeds the number of configured
followers (at least one), `replicate` returns `committed = False` once
every attempt has completed.  (With an empty follower list the code
instead returns `(True, 0)` regardless of `quorum`.) -/
theorem replicate_committed_iff (follower_urls : List String)
    (k v : String) (t : Rat) (quorum : Int)
    (sched : List (List (Bool × String))) (hf : follower_urls ≠ []) :
    ((ReplicationService.replicate follower_urls k v t quorum sched).1 =
        true ↔
      quorum ≤
        ((ReplicationService.replicate follower_urls k v t quorum
          sched).2 : Int)) ∧
    (ValidSchedule follower_urls sched →
      (follower_urls.length : Int) < quorum →
      (ReplicationService.replicate follower_urls k v t quorum sched).1 =
        false) := by
  rw [ReplicationService.replicate, if_neg (by simpa using hf)]
  constructor
  · rw [replicateLoop_fst]
    simp
  · intro hs hlen
    have h1 := replicateLoop_count_le quorum 0 sched
    have h2 : ackCount sched.flatten ≤ sched.flatten.length :=
      List.countP_le_length _
    rw [hs.2] at h2
    rw [replicateLoop_fst]
    simp only [decide_eq_false_iff_not]
    omega

/-- C6 (witness): one follower, `quorum = 2`, the single attempt
acknowledges: the call returns `committed = False` because `1 < 2`, in
accordance with both amended conjuncts. -/
theorem replicate_committed_iff_witness :
    ((ReplicationService.replicate ["a"] "k" "v" 1 2 [[(true, "a")]]).1 =
        true ↔
      (2 : Int) ≤
        ((ReplicationService.replicate ["a"] "k" "v" 1 2
          [[(true, "a")]]).2 : Int)) ∧
    (ReplicationService.replicate ["a"] "k" "v" 1 2 [[(true, "a")]]).1 =
      false :=
  ⟨(replicate_committed_iff ["a"] "k" "v" 1 2 [[(true, "a")]]
      (by decide)).1,
   (replicate_committed_iff ["a"] "k" "v" 1 2 [[(true, "a")]]
      (by decide)).2 (by constructor <;> decide) (by decide)⟩

/-- C7: with an empty configured follower list, `replicate` returns
`(True, 0)` for every quorum value before dispatching any task (zero
network calls); and whenever `quorum ≤ 0`, the waiting loop is skipped
and `replicate` returns `(True, 0)` whatever the followers answer — the
same outcome as with an empty follower set. -/
theorem replicate_trivial_success (follower_urls : List String)
    (k v : String) (t : Rat) (quorum : Int)
    (sched : List (List (Bool × String))) :
    (ReplicationService.replicate [] k v t quorum sched = (true, 0) ∧
     ReplicationService.dispatched [] = 0) ∧
    (quorum ≤ 0 →
      ReplicationService.replicate follower_urls k v t quorum sched =
        (true, 0)) := by
  refine ⟨⟨rfl, rfl⟩, ?_⟩
  intro hq
  rw [ReplicationService.replicate]
  by_cases hf : follower_urls.isEmpty
  · rw [if_pos hf]
  · rw [if_neg hf]
    cases sched with
    | nil =>
        rw [replicateLoop]
        simp only [Nat.cast_zero, decide_eq_true_eq, Prod.mk.injEq]
        exact ⟨by omega, trivial⟩
    | cons batch rest =>
        rw [replicateLoop, if_neg (by omega)]
        simp only [Nat.cast_zero, decide_eq_true_eq, Prod.mk.injEq]
        exact ⟨by omega, trivial⟩

/-- C7 (witness): `quorum = 0` with one configured follower whose attempt
fails still returns `(True, 0)`. -/
theorem replicate_trivial_success_witness :
    (ReplicationService.replicate [] "k" "v" 1 0 [] = (true, 0) ∧
     ReplicationService.dispatched [] = 0) ∧
    ReplicationService.replicate ["a"] "k" "v" 1 0 [[(false, "a")]] =
      (true, 0) :=
  ⟨(replicate_trivial_success ["a"] "k" "v" 1 0 [[(false, "a")]]).1,
   (replicate_trivial_success ["a"] "k" "v" 1 0 [[(false, "a")]]).2
     (by decide)⟩

/-- C8: a replication attempt acknowledges exactly when the follower
answers with a 200 response — a non-success status, a timeout or a
transport error (both of which surface as a raised exception, absorbed by
the attempt's `try/except`) all resolve the attempt to failed; and failed
attempts contribute nothing to the acknowledged count: a schedule whose
completions all failed yields an acknowledged count of `0`, while
`replicate` still returns its aggregate `(committed, count)` pair (the
model is a total function: no follower failure escapes the coordinator,
and each follower gets exactly one attempt, never a retry). -/
theorem attempt_failures_absorbed :
    (∀ (url : String) (reply : FollowerReply),
      ((replicateToFollower url reply).1 = true ↔
        ∃ fid, reply = .response 200 fid)) ∧
    (∀ (follower_urls : List String) (k v : String) (t : Rat)
      (quorum : Int) (sched : List (List (Bool × String))),
      (∀ b ∈ sched, ∀ r ∈ b, r.1 = false) →
      (ReplicationService.replicate follower_urls k v t quorum sched).2 =
        0) := by
  constructor
  · intro url reply
    cases reply with
    | response status fid =>
        by_cases h : status = 200
        · subst h
          simp [replicateToFollower]
        · simp [replicateToFollower, h]
    | exn msg => simp [replicateToFollower]
  · intro follower_urls k v t quorum sched hfail
    rw [ReplicationService.replicate]
    by_cases hf : follower_urls.isEmpty
    · rw [if_pos hf]
    · rw [if_neg hf]
      have hz : ackCount sched.flatten = 0 := by
        rw [ackCount, List.countP_eq_zero]
        intro r hr
        rw [List.mem_flatten] at hr
        obtain ⟨b, hb, hrb⟩ := hr
        simp [hfail b hb r hrb]
      have := replicateLoop_count_le quorum 0 sched
      omega

/-- C8 (witness): a transport error resolves to failed, and a schedule
of one failed attempt yields an acknowledged count of `0`. -/
theorem attempt_failures_absorbed_witness :
    ((replicateToFollower "u" (.exn "connect timeout")).1 = true ↔
      ∃ fid, FollowerReply.exn "connect timeout" =
        FollowerReply.response 200 fid) ∧
    (ReplicationService.replicate ["u"] "k" "v" 1 1 [[(false, "u")]]).2 =
      0 :=
  ⟨attempt_failures_absorbed.1 "u" (.exn "connect timeout"),
   attempt_failures_absorbed.2 ["u"] "k" "v" 1 1 [[(false, "u")]]
     (by decide)⟩

/-- C9: with a non-empty follower list and `quorum ≥ 1`, a committed
verdict always reports an acknowledged count of exactly `quorum`, never
more: the `for` loop over a completion batch returns at the first
acknowledgment that brings the count up to `quorum`, even when several
attempts completed in the same batch. -/
theorem replicate_committed_count_eq_quorum (follower_urls : List String)
    (k v : String) (t : Rat) (quorum : Int)
    (sched : List (List (Bool × String)))
    (hq : 1 ≤ quorum) (hf : follower_urls ≠ [])
    (h : (ReplicationService.replicate follower_urls k v t quorum
      sched).1 = true) :
    ((ReplicationService.replicate follower_urls k v t quorum
      sched).2 : Int) = quorum := by
  rw [ReplicationService.replicate, if_neg (by simpa using hf)] at h ⊢
  rw [replicateLoop_true_count quorum 0 sched (by omega) h]
  omega

/-- C9 (witness): two followers both acknowledging in the same batch with
`quorum = 1`: the count returned is `1`, not `2`. -/
theorem replicate_committed_count_eq_quorum_witness :
    ((ReplicationService.replicate ["a", "b"] "k" "v" 1 1
      [[(true, "a"), (true, "b")]]).2 : Int) = 1 :=
  replicate_committed_count_eq_quorum ["a", "b"] "k" "v" 1 1
    [[(true, "a"), (true, "b")]] (by decide) (by decide) (by decide)

end LeadersFollowers
